import Mathlib

/-!
Verification of the configuration-resolution and run-dispatch core of the
AVA command-line interface (`src/lib/cli.js`).

The JavaScript source is shallowly embedded: configuration objects become
finite partial maps `String → Option JSVal`, the sequential validation
checks of `exports.run` become a pure function from an input record (the
parsed arguments, the persisted-configuration load result, and the results
of the external preparation steps) to an `Outcome`, and process exits
become `Outcome` constructors.  Side-effect-only statements that cannot
influence control flow or the exit code (console warnings, the update
notifier, chalk colour configuration) are elided; every statement that can
terminate the process or change the produced configuration is modelled.
-/

namespace Ava

/-- A JavaScript value, restricted to the shapes that flow through the CLI
core: booleans, numbers (modelled as rationals; `Number.isInteger` becomes
"denominator 1"), strings, arrays of strings (the only arrays the flag
layer produces), and the two nullish values. -/
inductive JSVal where
  | bool (b : Bool)
  | num (q : ℚ)
  | str (s : String)
  | strList (l : List String)
  | undefined
  | null
deriving DecidableEq, Repr

/-- JavaScript truthiness for the values of `JSVal`. -/
def JSVal.truthy : JSVal → Bool
  | .bool b => b
  | .num q => if q = 0 then false else true
  | .str s => if s = "" then false else true
  | .strList _ => true
  | .undefined => false
  | .null => false

/-- A JavaScript object as a finite partial map: `none` means the key is
absent (`Reflect.has` is false), `some v` means the key is present with
value `v` (which may itself be `undefined`). -/
def Obj : Type := String → Option JSVal

/-- The empty object `{}`. -/
def Obj.empty : Obj := fun _ => none

/-- Property assignment `o[k] = v`. -/
def Obj.set (o : Obj) (k : String) (v : JSVal) : Obj :=
  fun k' => if k' = k then some v else o k'

/-- Truthiness of a property access: an absent key reads as `undefined`,
which is falsy. -/
def Obj.truthy (o : Obj) (k : String) : Bool :=
  match o k with
  | none => false
  | some v => v.truthy

/-- The keys of the `FLAGS` table (`src/lib/cli.js` lines 21-79), in
declaration order, which is the order `Object.keys` yields and the merge
loop iterates. -/
def FLAGS_KEYS : List String :=
  ["concurrency", "fail-fast", "match", "node-arguments", "serial",
   "tap", "timeout", "update-snapshots", "verbose", "watch"]

/-- One iteration of the merge loop (`src/lib/cli.js` lines 163-173):
if the parsed arguments carry the flag, store it into the accumulating
object, renaming `fail-fast` to `failFast` and `update-snapshots` to
`updateSnapshots`, and skipping `node-arguments` entirely. -/
def mergeFlag (argv : Obj) (acc : Obj) (flag : String) : Obj :=
  match argv flag with
  | none => acc
  | some v =>
    if flag = "fail-fast" then acc.set "failFast" v
    else if flag = "update-snapshots" then acc.set "updateSnapshots" v
    else if flag = "node-arguments" then acc
    else acc.set flag v

/-- The merged configuration `combined` (`src/lib/cli.js` lines 162-173):
start from a copy of the persisted configuration and fold the merge loop
over the flag table. -/
def combined (conf argv : Obj) : Obj :=
  FLAGS_KEYS.foldl (mergeFlag argv) conf

/-- The key written by one iteration of the merge loop for a given flag,
when the flag is present: `fail-fast` and `update-snapshots` are renamed,
`node-arguments` writes nothing. -/
def flagTarget (flag : String) : Option String :=
  if flag = "fail-fast" then some "failFast"
  else if flag = "update-snapshots" then some "updateSnapshots"
  else if flag = "node-arguments" then none
  else some flag

lemma Obj.set_apply (o : Obj) (k k' : String) (v : JSVal) :
    (o.set k v) k' = if k' = k then some v else o k' := rfl

lemma mergeFlag_apply (argv acc : Obj) (flag k : String) :
    (mergeFlag argv acc flag) k =
      match argv flag with
      | none => acc k
      | some v => if flagTarget flag = some k then some v else acc k := by
  unfold mergeFlag flagTarget
  cases argv flag with
  | none => rfl
  | some v =>
    by_cases h1 : flag = "fail-fast"
    · simp only [if_pos h1, Obj.set_apply, Option.some.injEq]
      by_cases hk : k = "failFast"
      · simp [hk]
      · rw [if_neg hk, if_neg (fun h => hk h.symm)]
    · by_cases h2 : flag = "update-snapshots"
      · simp only [if_neg h1, if_pos h2, Obj.set_apply, Option.some.injEq]
        by_cases hk : k = "updateSnapshots"
        · simp [hk]
        · rw [if_neg hk, if_neg (fun h => hk h.symm)]
      · by_cases h3 : flag = "node-arguments"
        · simp only [if_neg h1, if_neg h2, if_pos h3]
          simp
        · simp only [if_neg h1, if_neg h2, if_neg h3, Obj.set_apply, Option.some.injEq]
          by_cases hk : k = flag
          · simp [hk]
          · rw [if_neg hk, if_neg (fun h => hk h.symm)]

/-- If no flag in the list targets key `k`, folding the merge loop leaves
`k` unchanged. -/
lemma foldl_mergeFlag_preserves (argv : Obj) (flags : List String) (k : String)
    (h : ∀ f ∈ flags, flagTarget f ≠ some k) :
    ∀ acc : Obj, (flags.foldl (mergeFlag argv) acc) k = acc k := by
  induction flags with
  | nil => intro acc; rfl
  | cons f fs ih =>
    intro acc
    have hf : flagTarget f ≠ some k := h f (List.mem_cons_self f fs)
    have hfs : ∀ g ∈ fs, flagTarget g ≠ some k := fun g hg => h g (List.mem_cons_of_mem f hg)
    rw [List.foldl_cons, ih hfs]
    rw [mergeFlag_apply]
    cases argv f with
    | none => rfl
    | some v => simp [hf]

/-- Value of `combined` at the key targeted by one flag, obtained by
splitting the fold at that flag: earlier and later flags must not target
the key. -/
lemma combined_at_target (conf argv : Obj) (pre post : List String) (flag tgt : String)
    (hsplit : FLAGS_KEYS = pre ++ flag :: post)
    (hpre : ∀ f ∈ pre, flagTarget f ≠ some tgt)
    (hpost : ∀ f ∈ post, flagTarget f ≠ some tgt)
    (hflag : flagTarget flag = some tgt) :
    combined conf argv tgt =
      match argv flag with
      | none => conf tgt
      | some v => some v := by
  unfold combined
  rw [hsplit, List.foldl_append, List.foldl_cons]
  rw [foldl_mergeFlag_preserves argv post tgt hpost]
  rw [mergeFlag_apply]
  cases argv flag with
  | none => exact foldl_mergeFlag_preserves argv pre tgt hpre conf
  | some v => simp [hflag]

/-- Keys not targeted by any flag read from the persisted configuration. -/
lemma combined_untargeted (conf argv : Obj) (k : String)
    (h : ∀ f ∈ FLAGS_KEYS, flagTarget f ≠ some k) :
    combined conf argv k = conf k :=
  foldl_mergeFlag_preserves argv FLAGS_KEYS k h conf

/-- Both halves of the precedence law for one flag and its target key:
a present command-line value lands at the target verbatim, an absent one
leaves the persisted value there. -/
lemma flag_combined_cases (conf argv : Obj) (pre post : List String) (flag tgt : String)
    (hsplit : FLAGS_KEYS = pre ++ flag :: post)
    (hpre : ∀ f ∈ pre, flagTarget f ≠ some tgt)
    (hpost : ∀ f ∈ post, flagTarget f ≠ some tgt)
    (hflag : flagTarget flag = some tgt) :
    (∀ v, argv flag = some v → combined conf argv tgt = some v) ∧
    (argv flag = none → combined conf argv tgt = conf tgt) := by
  have h := combined_at_target conf argv pre post flag tgt hsplit hpre hpost hflag
  constructor
  · intro v hv; rw [h, hv]
  · intro hv; rw [h, hv]

lemma flagTarget_concurrency : flagTarget "concurrency" = some "concurrency" := rfl
lemma flagTarget_fail_fast : flagTarget "fail-fast" = some "failFast" := rfl
lemma flagTarget_match : flagTarget "match" = some "match" := rfl
lemma flagTarget_node_arguments : flagTarget "node-arguments" = none := rfl
lemma flagTarget_serial : flagTarget "serial" = some "serial" := rfl
lemma flagTarget_tap : flagTarget "tap" = some "tap" := rfl
lemma flagTarget_timeout : flagTarget "timeout" = some "timeout" := rfl
lemma flagTarget_update_snapshots : flagTarget "update-snapshots" = some "updateSnapshots" := rfl
lemma flagTarget_verbose : flagTarget "verbose" = some "verbose" := rfl
lemma flagTarget_watch : flagTarget "watch" = some "watch" := rfl

/-- The seven flags whose command-line value is written under the flag's
own name during the merge. -/
def DIRECT_FLAGS : List String :=
  ["concurrency", "match", "serial", "tap", "timeout", "verbose", "watch"]

/-- C1: for every recognized flag present on the command line, the merged
configuration takes the command-line value, overriding any persisted value
for that key; for every recognized flag absent from the command line, the
persisted value is left untouched; `fail-fast` and `update-snapshots` are
stored under the renamed fields `failFast` and `updateSnapshots` (their
hyphenated keys are never written); and the `node-arguments` flag is never
written into the merged configuration by this merge. -/
theorem C1_flag_merge_precedence (conf argv : Obj) :
    (∀ flag ∈ DIRECT_FLAGS,
      (∀ v, argv flag = some v → combined conf argv flag = some v) ∧
      (argv flag = none → combined conf argv flag = conf flag)) ∧
    (∀ v, argv "fail-fast" = some v → combined conf argv "failFast" = some v) ∧
    (argv "fail-fast" = none → combined conf argv "failFast" = conf "failFast") ∧
    (∀ v, argv "update-snapshots" = some v →
      combined conf argv "updateSnapshots" = some v) ∧
    (argv "update-snapshots" = none →
      combined conf argv "updateSnapshots" = conf "updateSnapshots") ∧
    combined conf argv "fail-fast" = conf "fail-fast" ∧
    combined conf argv "update-snapshots" = conf "update-snapshots" ∧
    combined conf argv "node-arguments" = conf "node-arguments" := by
  refine ⟨?_, ?_, ?_, ?_, ?_, ?_, ?_, ?_⟩
  · intro flag hflag
    fin_cases hflag
    · exact flag_combined_cases conf argv []
        ["fail-fast", "match", "node-arguments", "serial", "tap", "timeout",
         "update-snapshots", "verbose", "watch"] "concurrency" "concurrency"
        rfl (by decide) (by decide) rfl
    · exact flag_combined_cases conf argv ["concurrency", "fail-fast"]
        ["node-arguments", "serial", "tap", "timeout", "update-snapshots",
         "verbose", "watch"] "match" "match" rfl (by decide) (by decide) rfl
    · exact flag_combined_cases conf argv
        ["concurrency", "fail-fast", "match", "node-arguments"]
        ["tap", "timeout", "update-snapshots", "verbose", "watch"]
        "serial" "serial" rfl (by decide) (by decide) rfl
    · exact flag_combined_cases conf argv
        ["concurrency", "fail-fast", "match", "node-arguments", "serial"]
        ["timeout", "update-snapshots", "verbose", "watch"]
        "tap" "tap" rfl (by decide) (by decide) rfl
    · exact flag_combined_cases conf argv
        ["concurrency", "fail-fast", "match", "node-arguments", "serial", "tap"]
        ["update-snapshots", "verbose", "watch"]
        "timeout" "timeout" rfl (by decide) (by decide) rfl
    · exact flag_combined_cases conf argv
        ["concurrency", "fail-fast", "match", "node-arguments", "serial", "tap",
         "timeout", "update-snapshots"] ["watch"]
        "verbose" "verbose" rfl (by decide) (by decide) rfl
    · exact flag_combined_cases conf argv
        ["concurrency", "fail-fast", "match", "node-arguments", "serial", "tap",
         "timeout", "update-snapshots", "verbose"] []
        "watch" "watch" rfl (by decide) (by decide) rfl
  · exact (flag_combined_cases conf argv ["concurrency"]
      ["match", "node-arguments", "serial", "tap", "timeout",
       "update-snapshots", "verbose", "watch"] "fail-fast" "failFast"
      rfl (by decide) (by decide) rfl).1
  · exact (flag_combined_cases conf argv ["concurrency"]
      ["match", "node-arguments", "serial", "tap", "timeout",
       "update-snapshots", "verbose", "watch"] "fail-fast" "failFast"
      rfl (by decide) (by decide) rfl).2
  · exact (flag_combined_cases conf argv
      ["concurrency", "fail-fast", "match", "node-arguments", "serial", "tap",
       "timeout"] ["verbose", "watch"] "update-snapshots" "updateSnapshots"
      rfl (by decide) (by decide) rfl).1
  · exact (flag_combined_cases conf argv
      ["concurrency", "fail-fast", "match", "node-arguments", "serial", "tap",
       "timeout"] ["verbose", "watch"] "update-snapshots" "updateSnapshots"
      rfl (by decide) (by decide) rfl).2
  · exact combined_untargeted conf argv "fail-fast" (by decide)
  · exact combined_untargeted conf argv "update-snapshots" (by decide)
  · exact combined_untargeted conf argv "node-arguments" (by decide)

/-- A concrete persisted configuration used to witness C1. -/
def confC1 : Obj := fun k =>
  if k = "failFast" then some (.bool false)
  else if k = "timeout" then some (.str "20s")
  else if k = "node-arguments" then some (.str "--inspect")
  else none

/-- Concrete parsed command-line flags used to witness C1. -/
def argvC1 : Obj := fun k =>
  if k = "fail-fast" then some (.bool true)
  else if k = "watch" then some (.bool true)
  else none

/-- Witness for C1 at a concrete configuration and argument vector. -/
theorem C1_flag_merge_precedence_witness :
    combined confC1 argvC1 "failFast" = some (.bool true) ∧
    combined confC1 argvC1 "watch" = some (.bool true) ∧
    combined confC1 argvC1 "timeout" = some (.str "20s") ∧
    combined confC1 argvC1 "node-arguments" = some (.str "--inspect") := by
  obtain ⟨hdir, hff, _, _, _, _, _, hna⟩ := C1_flag_merge_precedence confC1 argvC1
  refine ⟨hff _ rfl, (hdir "watch" (by decide)).1 _ rfl, ?_, ?_⟩
  · exact ((hdir "timeout" (by decide)).2 rfl).trans rfl
  · exact hna.trans rfl

/-- A persisted configuration carrying a camel-cased `failFast` key, used
to refute the frame claim as stated. -/
def confC10 : Obj := fun k =>
  if k = "failFast" then some (.bool false)
  else if k = "files" then some (.strList ["test.js"])
  else none

/-- Parsed command-line flags carrying `fail-fast`, used to refute the
frame claim as stated. -/
def argvC10 : Obj := fun k =>
  if k = "fail-fast" then some (.bool true) else none

/-- C10, counterexample: the merge is not frame-preserving on every
persisted key outside the ten flag names — the renamed targets `failFast`
and `updateSnapshots` are not flag names, yet a command-line `fail-fast`
(resp. `update-snapshots`) overwrites them. -/
theorem C10_frame_counterexample :
    ¬ (∀ (conf argv : Obj) (k : String), k ∉ FLAGS_KEYS →
        combined conf argv k = conf k) := by
  intro h
  have hk : ("failFast" : String) ∉ FLAGS_KEYS := by decide
  have h1 := h confC10 argvC10 "failFast" hk
  have h2 : combined confC10 argvC10 "failFast" = some (.bool true) := by decide
  have h3 : confC10 "failFast" = some (.bool false) := by decide
  rw [h2, h3] at h1
  exact absurd h1 (by decide)

/-- C10, amended: the flag merge never mutates the persisted configuration
(it is a pure function of it), and every persisted key that is neither one
of the ten flag names nor one of the two renamed target fields `failFast`
and `updateSnapshots` appears in the merged configuration with exactly its
persisted value, whatever command-line arguments are supplied. -/
theorem C10_frame_preservation (conf argv : Obj) (k : String)
    (hmem : k ∉ FLAGS_KEYS) (hff : k ≠ "failFast") (hus : k ≠ "updateSnapshots") :
    combined conf argv k = conf k := by
  apply combined_untargeted
  have hk : ¬(k = "concurrency" ∨ k = "fail-fast" ∨ k = "match" ∨
      k = "node-arguments" ∨ k = "serial" ∨ k = "tap" ∨ k = "timeout" ∨
      k = "update-snapshots" ∨ k = "verbose" ∨ k = "watch") := by
    simpa [FLAGS_KEYS] using hmem
  push_neg at hk
  obtain ⟨h1, _, h3, _, h5, h6, h7, _, h9, h10⟩ := hk
  intro f hf
  fin_cases hf
  · rw [flagTarget_concurrency]
    exact fun h => h1 (Option.some.inj h).symm
  · rw [flagTarget_fail_fast]
    exact fun h => hff (Option.some.inj h).symm
  · rw [flagTarget_match]
    exact fun h => h3 (Option.some.inj h).symm
  · rw [flagTarget_node_arguments]
    exact fun h => Option.noConfusion h
  · rw [flagTarget_serial]
    exact fun h => h5 (Option.some.inj h).symm
  · rw [flagTarget_tap]
    exact fun h => h6 (Option.some.inj h).symm
  · rw [flagTarget_timeout]
    exact fun h => h7 (Option.some.inj h).symm
  · rw [flagTarget_update_snapshots]
    exact fun h => hus (Option.some.inj h).symm
  · rw [flagTarget_verbose]
    exact fun h => h9 (Option.some.inj h).symm
  · rw [flagTarget_watch]
    exact fun h => h10 (Option.some.inj h).symm

/-- Witness for the amended C10 at a concrete key. -/
theorem C10_frame_preservation_witness :
    combined confC10 argvC10 "files" = some (.strList ["test.js"]) := by
  have h := C10_frame_preservation confC10 argvC10 "files"
    (by decide) (by decide) (by decide)
  exact h.trans rfl

/-- The structured error thrown by `load-config`: a message plus an
optional parent cause, whose rendered stack text we carry as a string. -/
structure ConfLoadError where
  message : String
  parent : Option String
deriving DecidableEq, Repr

/-- The record built by the `debug` command handler (`src/lib/cli.js`
lines 144-150): break-before-load flag, the positional file patterns, and
the inspector port. -/
structure DebugArgs where
  brk : Bool
  files : List String
  port : ℚ
deriving DecidableEq, Repr

/-- The reporter chosen for the run, with the `watching` construction
argument for the two non-TAP reporters. -/
inductive Reporter where
  | tap
  | verbose (watching : Bool)
  | mini (watching : Bool)
deriving DecidableEq, Repr

/-- The observable outcome of reaching the engine/watcher stage: the data
`exports.run` derives from the merged configuration and hands to the `Api`
constructor, the reporter constructors, and the watch/one-shot branch. -/
structure Dispatch where
  watchMode : Bool
  reporter : Reporter
  matchPatterns : List JSVal
  concurrency : JSVal
  timeout : JSVal
  cacheEnabled : Bool
  failFast : Option JSVal
  updateSnapshots : Option JSVal
  failWithoutAssertions : Bool
  debug : Option DebugArgs
deriving DecidableEq, Repr

/-- The outcome of `exports.run` up to the point where control passes to
the external engine or watcher: a fatal `exit(message)` (process exit 1),
the reset-cache success print (process exit 0), a rethrown exception, or a
dispatch into watch/one-shot execution. -/
inductive Outcome where
  | exitErr (msg : String)
  | exitOk (msg : String)
  | thrown
  | dispatch (d : Dispatch)
deriving DecidableEq, Repr

/-- The process exit code forced by an eager outcome: `exit()` exits 1,
the reset-cache success path exits 0; a dispatch leaves the exit code to
the run, and a rethrow rejects the promise. -/
def Outcome.exitCode : Outcome → Option Nat
  | .exitErr _ => some 1
  | .exitOk _ => some 0
  | .thrown => none
  | .dispatch _ => none

/-- Everything `exports.run` consumes: the configuration-load result, the
parsed arguments, the command-handler state (`debug`, `resetCache`), the
ambient environment (`is-ci`, TTY-ness), and the results of the external
collaborators (cache deletion, `read-pkg`, providers, and the four
normalization helpers), each an opaque success or a thrown message. -/
structure CliInput where
  confLoad : Except ConfLoadError Obj
  argv : Obj
  pattern : List String
  debug : Option DebugArgs
  resetCache : Bool
  delOk : Bool
  delErrText : String
  isCi : Bool
  isTTY : Bool
  readPkgFails : Bool
  babelResult : Except String Unit
  tsResult : Except String Unit
  envResult : Except String Unit
  extResult : Except String Unit
  globsResult : Except String Unit
  nodeArgsResult : Except String Unit

def tapWatchMessage : String :=
  "The TAP reporter is not available when using watch mode."

def watchCiMessage : String :=
  "Watch mode is not available in CI, as it prevents AVA from terminating."

def watchDebugMessage : String :=
  "Watch mode is not available when debugging."

def tapDebugMessage : String :=
  "The TAP reporter is not available when debugging."

def debugCiMessage : String :=
  "Debugging is not available in CI."

def concurrencyMessage : String :=
  "The --concurrency or -c flag must be provided with a nonnegative integer."

def compileEnhancementsMessage : String :=
  "Enhancement compilation must be configured in AVA’s Babel options."

def helpersMessage : String :=
  "AVA no longer compiles helpers. Add exclusion patterns to the \x27files\x27 configuration and specify \x27compileAsTests\x27 in the Babel options instead."

def sourcesMessage : String :=
  "\x27sources\x27 has been removed. Use \x27ignoredByWatcher\x27 to provide glob patterns of files that the watcher should ignore."

def debugSingleFileMessage : String :=
  "Provide the path to the test file you wish to debug"

/-- Rendering of a captured configuration-load error (`src/lib/cli.js`
lines 178-184): with a parent cause the message is followed by a blank
line and the cause text (terminal styling elided), otherwise it is the
message alone. -/
def renderConfError (e : ConfLoadError) : String :=
  match e.parent with
  | some p => e.message ++ "\n\n" ++ p
  | none => e.message

/-- Reads `conf.projectDir` as the string the configuration loader stores. -/
def projectDirOf (conf : Obj) : String :=
  match conf "projectDir" with
  | some (.str s) => s
  | _ => ""

/-- Models `Number.isInteger`. -/
def JSVal.isInteger : JSVal → Bool
  | .num q => if q.den = 1 then true else false
  | _ => false

/-- Models `x < 0` for the values `Number.isInteger` accepts. -/
def JSVal.isNegativeNum : JSVal → Bool
  | .num q => if q < 0 then true else false
  | _ => false

/-- The concurrency guard (`src/lib/cli.js` line 233): the key is present
and its value is not an integer or is negative. -/
def concurrencyBad (comb : Obj) : Bool :=
  match comb "concurrency" with
  | none => false
  | some v => !v.isInteger || v.isNegativeNum

/-- Models line 343: an empty-string match resets to the empty list,
otherwise the value is arrified. -/
def matchPatternsOf (comb : Obj) : List JSVal :=
  match comb "match" with
  | some (.str "") => []
  | none => []
  | some .undefined => []
  | some .null => []
  | some (.strList l) => l.map .str
  | some v => [v]

/-- Models line 369: the merged timeout value when truthy, else the
default of ten seconds. -/
def timeoutOf (comb : Obj) : JSVal :=
  match comb "timeout" with
  | some v => if v.truthy then v else .str "10s"
  | none => .str "10s"

/-- Models line 351: the merged concurrency value when truthy, else 0. -/
def concurrencyOf (comb : Obj) : JSVal :=
  match comb "concurrency" with
  | some v => if v.truthy then v else .num 0
  | none => .num 0

/-- Models line 349: caching is enabled unless the merged cache value is
exactly false. -/
def cacheEnabledOf (comb : Obj) : Bool :=
  match comb "cache" with
  | some (.bool false) => false
  | _ => true

/-- Models line 357: fail-without-assertions is on unless the merged
value is exactly false. -/
def failWithoutAssertionsOf (comb : Obj) : Bool :=
  match comb "failWithoutAssertions" with
  | some (.bool false) => false
  | _ => true

/-- Reporter selection (`src/lib/cli.js` lines 374-395): TAP when
requested outside watch and debug, else the verbose reporter when
debugging, verbose is requested, CI is detected, or stdout is not a TTY,
else the mini reporter; the two non-TAP reporters receive
`combined.watch` as their `watching` argument. -/
def selectReporter (comb : Obj) (debug : Option DebugArgs) (isCi isTTY : Bool) : Reporter :=
  if comb.truthy "tap" && !comb.truthy "watch" && debug.isNone then .tap
  else if debug.isSome || comb.truthy "verbose" || isCi || !isTTY then
    .verbose (comb.truthy "watch")
  else .mini (comb.truthy "watch")

/-- One guarded preparation step: the gate mirrors the `Reflect.has`
condition around the corresponding `try`/`catch`-`exit` block, and the
result is the message thrown by the collaborator, if any. -/
def guardPrep (gate : Bool) (r : Except String Unit) : Option String :=
  if gate then
    match r with
    | .error m => some m
    | .ok _ => none
  else none

/-- The first preparation failure, in source order (`src/lib/cli.js`
lines 282-335): babel provider, typescript provider, environment
variables, extensions, globs, node arguments. -/
def firstPrepError (i : CliInput) (conf : Obj) : Option String :=
  (guardPrep (conf "babel").isSome i.babelResult).orElse fun _ =>
  (guardPrep (conf "typescript").isSome i.tsResult).orElse fun _ =>
  (guardPrep true i.envResult).orElse fun _ =>
  (guardPrep true i.extResult).orElse fun _ =>
  (guardPrep true i.globsResult).orElse fun _ =>
  guardPrep true i.nodeArgsResult

/-- The dispatch record assembled from the merged configuration once all
checks pass (`src/lib/cli.js` lines 343-395 and 408-435). -/
def mkDispatch (i : CliInput) (conf : Obj) : Dispatch :=
  let comb := combined conf i.argv
  { watchMode := comb.truthy "watch"
    reporter := selectReporter comb i.debug i.isCi i.isTTY
    matchPatterns := matchPatternsOf comb
    concurrency := concurrencyOf comb
    timeout := timeoutOf comb
    cacheEnabled := cacheEnabledOf comb
    failFast := comb "failFast"
    updateSnapshots := comb "updateSnapshots"
    failWithoutAssertions := failWithoutAssertionsOf comb
    debug := i.debug }

/-- The body of `exports.run` after the configuration loaded successfully
(`src/lib/cli.js` lines 186-417): reset-cache short-circuit, the watch
and debug validation blocks, the concurrency check, the three legacy-key
checks, `read-pkg`, the preparation steps, and finally the construction
of the `Api`, the reporter, and the watch/one-shot branch, summarized as
a `Dispatch`.  Statements that only print (the update notifier, the
debug-timeout notice, the experiments warning) are elided as they cannot
affect the outcome. -/
def runLoaded (i : CliInput) (conf : Obj) : Outcome :=
  if i.resetCache then
    let cacheDir := projectDirOf conf ++ "/node_modules/.cache/ava"
    if i.delOk then .exitOk ("Removed AVA cache files in " ++ cacheDir)
    else .exitErr ("Error removing AVA cache files in " ++ cacheDir ++ "\n\n" ++ i.delErrText)
  else if i.argv.truthy "watch" && (i.argv.truthy "tap" && !conf.truthy "tap") then
    .exitErr tapWatchMessage
  else if i.argv.truthy "watch" && i.isCi then .exitErr watchCiMessage
  else if i.argv.truthy "watch" && i.debug.isSome then .exitErr watchDebugMessage
  else if i.debug.isSome && (i.argv.truthy "tap" && !conf.truthy "tap") then
    .exitErr tapDebugMessage
  else if i.debug.isSome && i.isCi then .exitErr debugCiMessage
  else if concurrencyBad (combined conf i.argv) then .exitErr concurrencyMessage
  else if (conf "compileEnhancements").isSome then .exitErr compileEnhancementsMessage
  else if (conf "helpers").isSome then .exitErr helpersMessage
  else if (conf "sources").isSome then .exitErr sourcesMessage
  else if i.readPkgFails then .thrown
  else
    match firstPrepError i conf with
    | some m => .exitErr m
    | none => .dispatch (mkDispatch i conf)

/-- Models `exports.run` (`src/lib/cli.js` lines 81-435) up to the hand-off to
the engine or watcher: a captured configuration-load error is fatal
before anything else observable, otherwise the loaded configuration
drives `runLoaded`. -/
def run (i : CliInput) : Outcome :=
  match i.confLoad with
  | .error e => .exitErr (renderConfError e)
  | .ok conf => runLoaded i conf

/-- yargs command handlers are mutually exclusive: `resetCache` is set
only by the `reset-cache` command and `debug` only by the `debug`
command, so no input produced by argument parsing has both. -/
def CliInput.wf (i : CliInput) : Prop :=
  ¬(i.resetCache = true ∧ i.debug.isSome = true)

/-- A minimal well-formed persisted configuration: the loader always
supplies `projectDir`. -/
def baseConf : Obj := fun k =>
  if k = "projectDir" then some (.str "/proj") else none

/-- A clean invocation: configuration loads, no flags, no command, not in
CI, interactive stdout, every external collaborator succeeds. -/
def baseInput : CliInput := {
  confLoad := .ok baseConf
  argv := Obj.empty
  pattern := []
  debug := none
  resetCache := false
  delOk := true
  delErrText := ""
  isCi := false
  isTTY := true
  readPkgFails := false
  babelResult := .ok ()
  tsResult := .ok ()
  envResult := .ok ()
  extResult := .ok ()
  globsResult := .ok ()
  nodeArgsResult := .ok ()
}

/-- An input that does not invoke `reset-cache` is well-formed. -/
lemma wf_of_not_reset (i : CliInput) (h : i.resetCache = false) : i.wf := by
  intro hx
  rw [h] at hx
  exact Bool.noConfusion hx.1

/-- A conditional both of whose branches are fatal exits is a fatal
exit. -/
lemma exists_exitErr_ite {A : Prop} [Decidable A] {t e : Outcome}
    (ht : ∃ m, t = Outcome.exitErr m) (he : ∃ m, e = Outcome.exitErr m) :
    ∃ m, (if A then t else e) = Outcome.exitErr m := by
  split_ifs
  · exact ht
  · exact he

/-- Holds `true` when the persisted configuration (if it loaded) carries a
truthy `watch` value. -/
def confHasWatch (i : CliInput) : Bool :=
  match i.confLoad with
  | .ok c => c.truthy "watch"
  | .error _ => false

/-- A persisted configuration enabling watch mode. -/
def confWatchC2 : Obj := fun k =>
  if k = "projectDir" then some (.str "/proj")
  else if k = "watch" then some (.bool true)
  else none

/-- A `debug` command invocation with one file pattern. -/
def dbgC2 : DebugArgs := { brk := false, files := ["test.js"], port := 9229 }

/-- The refuting input for C2: watch enabled by the persisted
configuration, `debug` command on the command line, no `--watch` flag. -/
def inputC2 : CliInput :=
  { baseInput with confLoad := .ok confWatchC2, debug := some dbgC2 }

/-- C2, counterexample: with watch enabled only via the persisted
configuration and the `debug` command active, `exports.run` does not fail
— it dispatches into watch mode (constructing a reporter and a watcher),
because the mutual-exclusion check tests `argv.watch`, not the merged
watch value. -/
theorem C2_watch_debug_counterexample :
    ¬ (∀ i : CliInput, i.wf →
        (i.argv.truthy "watch" = true ∨ confHasWatch i = true) →
        i.debug.isSome = true →
        ∃ m, run i = .exitErr m) := by
  intro h
  obtain ⟨m, hm⟩ := h inputC2 (wf_of_not_reset _ rfl) (Or.inr (by decide)) (by decide)
  have h1 : (run inputC2).exitCode = some 1 := by rw [hm]; rfl
  have h2 : (run inputC2).exitCode = none := by decide
  rw [h1] at h2
  exact Option.noConfusion h2

/-- C2, amended: watch mode and debug mode are mutually exclusive when
watch is enabled on the command line: for any input with a truthy
`--watch` flag and an active `debug` command, resolution fails with exit
code 1 before any mode-specific side effect (every such input produces an
`exit(message)` outcome, never a dispatch). -/
theorem C2_watch_cli_debug_exclusive (i : CliInput) (hwf : i.wf)
    (hw : i.argv.truthy "watch" = true) (hd : i.debug.isSome = true) :
    ∃ m, run i = .exitErr m := by
  have hrc : i.resetCache = false := by
    cases hrcv : i.resetCache
    · rfl
    · exact absurd ⟨hrcv, hd⟩ hwf
  unfold run
  rcases hc : i.confLoad with e | conf
  · exact ⟨_, rfl⟩
  · unfold runLoaded
    simp only [hrc, hw, hd, Bool.true_and, Bool.and_true, Bool.false_eq_true,
      if_false, reduceIte]
    exact exists_exitErr_ite ⟨_, rfl⟩ (exists_exitErr_ite ⟨_, rfl⟩ ⟨_, rfl⟩)

/-- The witnessing input for the amended C2: `--watch` on the command
line together with the `debug` command. -/
def inputC2w : CliInput :=
  { baseInput with
      argv := Obj.empty.set "watch" (.bool true)
      debug := some dbgC2 }

/-- Witness for the amended C2 at a concrete input. -/
theorem C2_watch_cli_debug_exclusive_witness :
    ∃ m, run inputC2w = .exitErr m :=
  C2_watch_cli_debug_exclusive inputC2w (wf_of_not_reset _ rfl) (by decide) (by decide)

/-- A structured configuration-load failure with a parent cause. -/
def errC3 : ConfLoadError :=
  { message := "ava.config.js must have a default export"
    parent := some "SyntaxError: Unexpected token" }

/-- A `reset-cache` invocation whose configuration failed to load. -/
def inputC3rc : CliInput :=
  { baseInput with confLoad := .error errC3, resetCache := true }

/-- C3, counterexample: a `reset-cache` invocation does not survive a
broken configuration — the captured load error is surfaced (exit 1)
before the reset-cache branch runs, so the cache-reset success path
(exit 0) is never reached. -/
theorem C3_reset_cache_counterexample :
    ¬ (∀ (i : CliInput) (e : ConfLoadError), i.confLoad = .error e →
        i.resetCache = true → i.delOk = true → ∃ m, run i = .exitOk m) := by
  intro h
  obtain ⟨m, hm⟩ := h inputC3rc errC3 rfl rfl rfl
  have h2 : (run inputC3rc).exitCode = some 1 := by decide
  rw [hm] at h2
  simp [Outcome.exitCode] at h2

/-- C3, amended: when loading the persisted configuration fails the error
is captured and resolution continues with an empty configuration (so that
parse-time short-circuits such as help still work), but every invocation
that reaches resolution — including `reset-cache` — fails with exit code 1
and the captured error as its diagnostic, rendered with its parent cause
when present. -/
theorem C3_conf_error_fatal (i : CliInput) (e : ConfLoadError)
    (h : i.confLoad = .error e) :
    run i = .exitErr (renderConfError e) := by
  unfold run
  rw [h]

/-- Witness for the amended C3: a broken configuration with a parent
cause is fatal, with the cause appended to the diagnostic. -/
theorem C3_conf_error_fatal_witness :
    run inputC3rc =
      .exitErr "ava.config.js must have a default export\n\nSyntaxError: Unexpected token" := by
  have h := C3_conf_error_fatal inputC3rc errC3 rfl
  rw [h]
  rfl

/-- Everything after the concurrency and legacy-key checks succeeds: no
legacy keys, `read-pkg` does not throw, and the preparation steps all
succeed.  Under these the run reaches the dispatch stage unless an
earlier check fires. -/
def passRest (i : CliInput) (conf : Obj) : Prop :=
  conf "compileEnhancements" = none ∧ conf "helpers" = none ∧
  conf "sources" = none ∧ i.readPkgFails = false ∧
  firstPrepError i conf = none

instance (i : CliInput) (conf : Obj) : Decidable (passRest i conf) := by
  unfold passRest
  infer_instance

/-- C4: with the concurrency check reached (default command, no watch
flag, configuration loaded), a present concurrency value that is not an
integer or is negative is rejected with exit code 1 and the fixed
nonnegative-integer diagnostic; every nonnegative integer value,
including 0, is accepted (the run reaches dispatch when everything
downstream succeeds); and when no concurrency value is present the check
never fires. -/
theorem C4_concurrency_validation (i : CliInput) (conf : Obj)
    (hconf : i.confLoad = .ok conf) (hrc : i.resetCache = false)
    (hw : i.argv.truthy "watch" = false) (hd : i.debug = none) :
    (∀ v, combined conf i.argv "concurrency" = some v →
      (v.isInteger = false ∨ v.isNegativeNum = true) →
      run i = .exitErr concurrencyMessage) ∧
    (passRest i conf → ∀ q : ℚ, combined conf i.argv "concurrency" = some (.num q) →
      q.den = 1 → 0 ≤ q → ∃ d, run i = .dispatch d) ∧
    (passRest i conf → combined conf i.argv "concurrency" = none →
      ∃ d, run i = .dispatch d) := by
  refine ⟨?_, ?_, ?_⟩
  · intro v hv hbad
    have hcb : concurrencyBad (combined conf i.argv) = true := by
      unfold concurrencyBad
      rw [hv]
      show (!v.isInteger || v.isNegativeNum) = true
      rcases hbad with h | h
      · rw [h]; rfl
      · rw [h, Bool.or_true]
    unfold run
    rw [hconf]
    unfold runLoaded
    simp only [hrc, hw, hd, Option.isSome_none, Bool.false_and,
      Bool.false_eq_true, if_false, reduceIte, hcb]
  · rintro ⟨hl1, hl2, hl3, hpkg, hprep⟩ q hv hden hpos
    have hcb : concurrencyBad (combined conf i.argv) = false := by
      unfold concurrencyBad
      rw [hv]
      show (!(JSVal.num q).isInteger || (JSVal.num q).isNegativeNum) = false
      simp only [JSVal.isInteger, JSVal.isNegativeNum, hden]
      rw [if_pos trivial, if_neg (not_lt.mpr hpos)]
      rfl
    unfold run
    rw [hconf]
    unfold runLoaded
    simp only [hrc, hw, hd, Option.isSome_none, Bool.false_and,
      Bool.false_eq_true, if_false, reduceIte, hcb, hl1, hl2, hl3, hpkg, hprep]
    exact ⟨_, rfl⟩
  · rintro ⟨hl1, hl2, hl3, hpkg, hprep⟩ hv
    have hcb : concurrencyBad (combined conf i.argv) = false := by
      unfold concurrencyBad
      rw [hv]
    unfold run
    rw [hconf]
    unfold runLoaded
    simp only [hrc, hw, hd, Option.isSome_none, Bool.false_and,
      Bool.false_eq_true, if_false, reduceIte, hcb, hl1, hl2, hl3, hpkg, hprep]
    exact ⟨_, rfl⟩

/-- A `--concurrency -1` invocation on an otherwise clean project. -/
def inputC4r : CliInput :=
  { baseInput with argv := Obj.empty.set "concurrency" (.num (-1)) }

/-- A `--concurrency 4` invocation on an otherwise clean project. -/
def inputC4a : CliInput :=
  { baseInput with argv := Obj.empty.set "concurrency" (.num 4) }

/-- Witness for C4: `-1` is rejected with the fixed diagnostic, `4` and
an absent value are accepted through to dispatch. -/
theorem C4_concurrency_validation_witness :
    run inputC4r = .exitErr concurrencyMessage ∧
    (∃ d, run inputC4a = .dispatch d) ∧
    (∃ d, run baseInput = .dispatch d) := by
  refine ⟨?_, ?_, ?_⟩
  · exact (C4_concurrency_validation inputC4r baseConf rfl rfl (by decide)
      rfl).1 (.num (-1)) (by decide) (Or.inr (by decide))
  · exact (C4_concurrency_validation inputC4a baseConf rfl rfl (by decide)
      rfl).2.1 (by decide) 4 (by decide) (by decide) (by decide)
  · exact (C4_concurrency_validation baseInput baseConf rfl rfl (by decide)
      rfl).2.2 (by decide) (by decide)

/-- C5: a legacy key (`compileEnhancements`, `helpers`, `sources`) in the
loaded persisted configuration is fatal (exit 1) for every non-reset-cache
invocation, whatever command-line flags are supplied; when the preceding
checks pass, each key yields its own remediation message, checked in
source order; and the three messages are pairwise distinct. -/
theorem C5_legacy_keys (i : CliInput) (conf : Obj)
    (hconf : i.confLoad = .ok conf) (hrc : i.resetCache = false) :
    (((conf "compileEnhancements").isSome = true ∨
      (conf "helpers").isSome = true ∨ (conf "sources").isSome = true) →
      ∃ m, run i = .exitErr m) ∧
    (i.argv.truthy "watch" = false → i.debug = none →
      concurrencyBad (combined conf i.argv) = false →
      ((conf "compileEnhancements").isSome = true →
        run i = .exitErr compileEnhancementsMessage) ∧
      (conf "compileEnhancements" = none → (conf "helpers").isSome = true →
        run i = .exitErr helpersMessage) ∧
      (conf "compileEnhancements" = none → conf "helpers" = none →
        (conf "sources").isSome = true → run i = .exitErr sourcesMessage)) ∧
    (compileEnhancementsMessage ≠ helpersMessage ∧
     compileEnhancementsMessage ≠ sourcesMessage ∧
     helpersMessage ≠ sourcesMessage) := by
  refine ⟨?_, ?_, by decide⟩
  · intro hleg
    unfold run
    rw [hconf]
    unfold runLoaded
    rcases hleg with h | h | h <;>
      simp only [hrc, h, Bool.false_eq_true, if_false, reduceIte] <;>
      (repeat' apply exists_exitErr_ite ⟨_, rfl⟩) <;>
      exact ⟨_, rfl⟩
  · intro hw hd hcb
    refine ⟨?_, ?_, ?_⟩
    · intro h1
      unfold run
      rw [hconf]
      unfold runLoaded
      simp only [hrc, hw, hd, hcb, h1, Option.isSome_none, Bool.false_and,
        Bool.false_eq_true, if_false, reduceIte]
    · intro h1 h2
      unfold run
      rw [hconf]
      unfold runLoaded
      simp only [hrc, hw, hd, hcb, h1, h2, Option.isSome_none, Bool.false_and,
        Bool.false_eq_true, if_false, reduceIte]
    · intro h1 h2 h3
      unfold run
      rw [hconf]
      unfold runLoaded
      simp only [hrc, hw, hd, hcb, h1, h2, h3, Option.isSome_none,
        Bool.false_and, Bool.false_eq_true, if_false, reduceIte]

/-- A persisted configuration carrying the legacy `helpers` key. -/
def confC5 : Obj := fun k =>
  if k = "projectDir" then some (.str "/proj")
  else if k = "helpers" then some (.strList ["helpers/setup.js"])
  else none

/-- A `--serial` invocation against a configuration with the legacy
`helpers` key. -/
def inputC5 : CliInput :=
  { baseInput with
      confLoad := .ok confC5
      argv := Obj.empty.set "serial" (.bool true) }

/-- Witness for C5: the legacy `helpers` key is fatal with its own
message despite a `--serial` flag. -/
theorem C5_legacy_keys_witness :
    run inputC5 = .exitErr helpersMessage := by
  have h := C5_legacy_keys inputC5 confC5 rfl rfl
  exact (h.2.1 (by decide) rfl (by decide)).2.1 (by decide) (by decide)

/-- C9: a command-line `--watch` together with a command-line `--tap`
fails with the fixed TAP/watch message and exit code 1 when the persisted
configuration does not itself request TAP; when the persisted
configuration requests TAP, the combination is allowed and (everything
else succeeding) the run reaches dispatch. -/
theorem C9_tap_watch (i : CliInput) (conf : Obj)
    (hconf : i.confLoad = .ok conf) (hrc : i.resetCache = false) :
    (i.argv.truthy "watch" = true → i.argv.truthy "tap" = true →
      conf.truthy "tap" = false → run i = .exitErr tapWatchMessage) ∧
    (conf.truthy "tap" = true → i.isCi = false → i.debug = none →
      concurrencyBad (combined conf i.argv) = false → passRest i conf →
      ∃ d, run i = .dispatch d) := by
  constructor
  · intro hw ht hct
    unfold run
    rw [hconf]
    unfold runLoaded
    simp only [hrc, hw, ht, hct, Bool.not_false, Bool.and_self, Bool.true_and,
      Bool.false_eq_true, if_false, reduceIte]
  · rintro hct hci hd hcb ⟨hl1, hl2, hl3, hpkg, hprep⟩
    unfold run
    rw [hconf]
    unfold runLoaded
    simp only [hrc, hct, hci, hd, hcb, hl1, hl2, hl3, hpkg, hprep,
      Option.isSome_none, Bool.not_true, Bool.and_false, Bool.false_and,
      Bool.false_eq_true, if_false, reduceIte]
    exact ⟨_, rfl⟩

/-- Parsed arguments carrying both `--watch` and `--tap`. -/
def argvC9 : Obj := (Obj.empty.set "watch" (.bool true)).set "tap" (.bool true)

/-- An invocation of `--watch --tap` with a persisted configuration not
setting `tap`. -/
def inputC9f : CliInput := { baseInput with argv := argvC9 }

/-- A persisted configuration requesting TAP. -/
def confC9 : Obj := fun k =>
  if k = "projectDir" then some (.str "/proj")
  else if k = "tap" then some (.bool true)
  else none

/-- An invocation of `--watch --tap` with a persisted configuration that
also sets
`tap: true`. -/
def inputC9a : CliInput := { baseInput with confLoad := .ok confC9, argv := argvC9 }

/-- Witness for C9: the ad-hoc combination fails with the fixed message,
the persisted-config combination dispatches. -/
theorem C9_tap_watch_witness :
    run inputC9f = .exitErr tapWatchMessage ∧
    ∃ d, run inputC9a = .dispatch d := by
  constructor
  · exact (C9_tap_watch inputC9f baseConf rfl rfl).1 (by decide) (by decide)
      (by decide)
  · exact (C9_tap_watch inputC9a confC9 rfl rfl).2 (by decide) rfl rfl
      (by decide) (by decide)

set_option maxHeartbeats 1600000 in
/-- Any dispatch produced by `runLoaded` is the record assembled by
`mkDispatch`. -/
lemma runLoaded_dispatch_eq (i : CliInput) (conf : Obj) (d : Dispatch)
    (hrun : runLoaded i conf = .dispatch d) : d = mkDispatch i conf := by
  unfold runLoaded at hrun
  repeat' split at hrun
  all_goals first
    | exact Outcome.noConfusion hrun
    | exact (Outcome.dispatch.inj hrun).symm

/-- Any dispatch produced by `run` is the record assembled by
`mkDispatch`. -/
lemma run_dispatch_eq (i : CliInput) (conf : Obj) (hconf : i.confLoad = .ok conf)
    (d : Dispatch) (hrun : run i = .dispatch d) : d = mkDispatch i conf := by
  have h : run i = runLoaded i conf := by unfold run; rw [hconf]
  rw [h] at hrun
  exact runLoaded_dispatch_eq i conf d hrun

/-- The reporter decision in isolation: the three priority cases of
`selectReporter`. -/
lemma selectReporter_cases (comb : Obj) (debug : Option DebugArgs) (isCi isTTY : Bool) :
    (comb.truthy "tap" = true → comb.truthy "watch" = false → debug = none →
      selectReporter comb debug isCi isTTY = .tap) ∧
    (¬(comb.truthy "tap" = true ∧ comb.truthy "watch" = false ∧ debug = none) →
      (debug.isSome = true ∨ comb.truthy "verbose" = true ∨ isCi = true ∨ isTTY = false) →
      selectReporter comb debug isCi isTTY = .verbose (comb.truthy "watch")) ∧
    (¬(debug.isSome = true ∨ comb.truthy "verbose" = true ∨ isCi = true ∨ isTTY = false) →
      ¬(comb.truthy "tap" = true ∧ comb.truthy "watch" = false ∧ debug = none) →
      selectReporter comb debug isCi isTTY = .mini (comb.truthy "watch")) := by
  rcases debug with _ | dbg <;>
    cases htap : comb.truthy "tap" <;>
    cases hwatch : comb.truthy "watch" <;>
    cases hverb : comb.truthy "verbose" <;>
    cases isCi <;>
    cases isTTY <;>
    simp [selectReporter, htap, hwatch, hverb]

/-- C6: reporter selection is a priority-ordered decision over the merged
configuration and ambient context.  Whenever `exports.run` dispatches:
TAP requested, not watching and not debugging yields the TAP reporter;
otherwise debugging, verbose requested, CI, or a non-interactive stdout
yields the verbose reporter; otherwise the mini reporter is chosen. -/
theorem C6_reporter_selection (i : CliInput) (conf : Obj) (d : Dispatch)
    (hconf : i.confLoad = .ok conf) (hrun : run i = .dispatch d) :
    ((combined conf i.argv).truthy "tap" = true →
      (combined conf i.argv).truthy "watch" = false → i.debug = none →
      d.reporter = .tap) ∧
    (¬((combined conf i.argv).truthy "tap" = true ∧
        (combined conf i.argv).truthy "watch" = false ∧ i.debug = none) →
      (i.debug.isSome = true ∨ (combined conf i.argv).truthy "verbose" = true ∨
        i.isCi = true ∨ i.isTTY = false) →
      d.reporter = .verbose ((combined conf i.argv).truthy "watch")) ∧
    (¬(i.debug.isSome = true ∨ (combined conf i.argv).truthy "verbose" = true ∨
        i.isCi = true ∨ i.isTTY = false) →
      ¬((combined conf i.argv).truthy "tap" = true ∧
        (combined conf i.argv).truthy "watch" = false ∧ i.debug = none) →
      d.reporter = .mini ((combined conf i.argv).truthy "watch")) := by
  have he := run_dispatch_eq i conf hconf d hrun
  have hrep : d.reporter =
      selectReporter (combined conf i.argv) i.debug i.isCi i.isTTY := by
    rw [he]
    rfl
  obtain ⟨p1, p2, p3⟩ :=
    selectReporter_cases (combined conf i.argv) i.debug i.isCi i.isTTY
  exact ⟨fun a b c => hrep.trans (p1 a b c),
         fun a b => hrep.trans (p2 a b),
         fun a b => hrep.trans (p3 a b)⟩

/-- A persisted configuration requesting TAP output. -/
def confC6 : Obj := fun k =>
  if k = "projectDir" then some (.str "/proj")
  else if k = "tap" then some (.bool true)
  else none

/-- A plain run against a TAP-requesting configuration. -/
def inputC6 : CliInput := { baseInput with confLoad := .ok confC6 }

/-- Witness for C6: a TAP-requesting configuration without watch or debug
selects the TAP reporter; a clean interactive run selects the mini
reporter. -/
theorem C6_reporter_selection_witness :
    (∃ d, run inputC6 = .dispatch d ∧ d.reporter = .tap) ∧
    (∃ d, run baseInput = .dispatch d ∧ d.reporter = .mini false) := by
  constructor
  · have hrun : run inputC6 = .dispatch (mkDispatch inputC6 confC6) := by decide
    exact ⟨_, hrun, (C6_reporter_selection inputC6 confC6 _ rfl hrun).1
      (by decide) (by decide) rfl⟩
  · have hrun : run baseInput = .dispatch (mkDispatch baseInput baseConf) := by decide
    refine ⟨_, hrun, ?_⟩
    have h := (C6_reporter_selection baseInput baseConf _ rfl hrun).2.2
      (by decide) (by decide)
    rw [h]
    rfl

/-- The plan metadata the orchestrator inspects from the engine's `run`
event (`src/lib/cli.js` lines 397, 420-424): whether it is a debug plan
and the resolved file list. -/
structure RunPlan where
  debug : Bool
  files : List String
deriving DecidableEq, Repr

/-- The tracking listener of the one-shot branch (`src/lib/cli.js`
lines 419-424): the flag is set when any started plan is a debug plan
whose resolved file count is not exactly one. -/
def debugWithoutSpecificFile (plans : List RunPlan) : Bool :=
  plans.any fun p => p.debug && p.files.length != 1

/-- The final exit decision of the one-shot branch: a fatal `exit(msg)`
(process exit 1) or an exit code assigned from the engine result. -/
inductive OneShotResult where
  | fail (msg : String)
  | code (c : Nat)
deriving DecidableEq, Repr

/-- The exit code an exit decision forces: `exit(msg)` exits 1,
otherwise the assigned code stands. -/
def OneShotResult.exitCode : OneShotResult → Nat
  | .fail _ => 1
  | .code c => c

/-- The epilogue of the one-shot branch (`src/lib/cli.js` lines 426-434):
after the run completes, a set debug-without-specific-file flag overrides
everything with a fatal instruction message, otherwise the exit code is
the engine result's `suggestExitCode`, queried with whether any match
pattern was supplied. -/
def oneShotFinish (plans : List RunPlan) (suggestExitCode : Bool → Nat)
    (matchPatterns : List JSVal) : OneShotResult :=
  if debugWithoutSpecificFile plans then .fail debugSingleFileMessage
  else .code (suggestExitCode (decide (matchPatterns.length > 0)))

/-- A debug plan that resolved zero files, refuting the more-than-one
reading of C7. -/
def planC7zero : RunPlan := { debug := true, files := [] }

/-- C7, counterexample: the override also fires for a debug plan with
zero resolved files — the source tests `files.length !== 1`, not
`> 1` — so for such a run the exit code is not taken from
`suggestExitCode` even though no plan has more than one file. -/
theorem C7_counterexample :
    ¬ (∀ (plans : List RunPlan) (suggest : Bool → Nat) (ms : List JSVal),
        ¬(∃ p ∈ plans, p.debug = true ∧ p.files.length > 1) →
        oneShotFinish plans suggest ms =
          .code (suggest (decide (ms.length > 0)))) := by
  intro h
  have hc := h [planC7zero] (fun _ => 0) [] (by simp [planC7zero])
  have h2 : oneShotFinish [planC7zero] (fun _ => 0) [] =
      .fail debugSingleFileMessage := rfl
  rw [h2] at hc
  exact OneShotResult.noConfusion hc

/-- C7, amended: in one-shot mode, if any started plan was a debug plan
whose resolved file count is not exactly one, the orchestrator overrides
any engine result and fails with the fixed instruction message (exit
code 1), independently of `suggestExitCode`; otherwise the exit code is
`suggestExitCode` queried with whether any match pattern was supplied. -/
theorem C7_debug_single_file (plans : List RunPlan) (suggest : Bool → Nat)
    (ms : List JSVal) :
    ((∃ p ∈ plans, p.debug = true ∧ p.files.length ≠ 1) →
      oneShotFinish plans suggest ms = .fail debugSingleFileMessage ∧
      (oneShotFinish plans suggest ms).exitCode = 1) ∧
    ((∀ p ∈ plans, p.debug = true → p.files.length = 1) →
      oneShotFinish plans suggest ms =
        .code (suggest (decide (ms.length > 0)))) := by
  constructor
  · rintro ⟨p, hp, hdbg, hne⟩
    have hflag : debugWithoutSpecificFile plans = true := by
      unfold debugWithoutSpecificFile
      rw [List.any_eq_true]
      exact ⟨p, hp, by rw [hdbg]; simpa using hne⟩
    unfold oneShotFinish
    rw [hflag]
    exact ⟨rfl, rfl⟩
  · intro hall
    have hflag : debugWithoutSpecificFile plans = false := by
      unfold debugWithoutSpecificFile
      rw [List.any_eq_false]
      intro p hp
      cases hdbg : p.debug
      · simp
      · simp [hall p hp hdbg]
    unfold oneShotFinish
    rw [hflag]
    rfl

/-- A debug plan that resolved two files. -/
def planC7two : RunPlan := { debug := true, files := ["a.js", "b.js"] }

/-- A non-debug plan that resolved two files. -/
def planC7run : RunPlan := { debug := false, files := ["a.js", "b.js"] }

/-- Witness for the amended C7: a two-file debug plan fails with the
fixed message regardless of the engine result, and a non-debug run takes
`suggestExitCode`. -/
theorem C7_debug_single_file_witness :
    (oneShotFinish [planC7two] (fun _ => 0) [] =
      .fail debugSingleFileMessage ∧
     (oneShotFinish [planC7two] (fun _ => 0) []).exitCode = 1) ∧
    oneShotFinish [planC7run] (fun b => if b then 2 else 3) [.str "title"] =
      .code 2 := by
  constructor
  · exact (C7_debug_single_file [planC7two] (fun _ => 0) []).1
      ⟨planC7two, by decide, by decide, by decide⟩
  · exact (C7_debug_single_file [planC7run] (fun b => if b then 2 else 3)
      [.str "title"]).2 (by decide)

/-- A status-stream event: the orchestrator inspects only its type. -/
structure StatusEvent where
  type : String
deriving DecidableEq, Repr

/-- What the `stateChange` listener does in reaction to an event. -/
inductive StateChangeReaction where
  | ignore
  | endRunAndExit (code : Nat)
deriving DecidableEq, Repr

/-- The `stateChange` listener registered on a run plan's status stream
(`src/lib/cli.js` lines 400-405): an `interrupt` event ends the
reporter's run view and terminates the process with exit code 1; any
other event does nothing. -/
def onStateChange (evt : StatusEvent) : StateChangeReaction :=
  if evt.type = "interrupt" then .endRunAndExit 1 else .ignore

/-- C8: the listener ends the run view and terminates with exit code 1
exactly for events of type `interrupt`; every other event type causes no
termination. -/
theorem C8_interrupt_exit (evt : StatusEvent) :
    (onStateChange evt = .endRunAndExit 1 ↔ evt.type = "interrupt") ∧
    (evt.type ≠ "interrupt" → onStateChange evt = .ignore) := by
  unfold onStateChange
  constructor
  · constructor
    · intro h
      by_contra hne
      rw [if_neg hne] at h
      exact StateChangeReaction.noConfusion h
    · intro h
      rw [if_pos h]
  · intro h
    rw [if_neg h]

/-- Witness for C8: an interrupt event terminates with exit code 1, a
declared-test event does not. -/
theorem C8_interrupt_exit_witness :
    onStateChange ⟨"interrupt"⟩ = .endRunAndExit 1 ∧
    onStateChange ⟨"declared-test"⟩ = .ignore :=
  ⟨(C8_interrupt_exit ⟨"interrupt"⟩).1.mpr rfl,
   (C8_interrupt_exit ⟨"declared-test"⟩).2 (by decide)⟩

end Ava
